import Mathlib

/-!
Shallow embedding of the payment-request lifecycle core:

* `src/requests_app/request/models.py` — the `PaymentRequest` entity, its
  `Status` and `Currency` enumerations, and the four transition operations
  `approve`, `reject`, `complete`, `cancel` (plus the derived predicate
  `can_be_cancelled`).
* `src/requests_app/request/tasks.py` — the Celery worker
  `process_payment_request`, modelled as two lock-protected phases with the
  store state threaded explicitly and log/return events reified.
* `src/requests_app/request/signals.py` — the `post_save` receiver
  `trigger_payment_processing`, modelled as the list of task invocations it
  registers via the post-commit hook.

Django timestamps (`auto_now` for `updated_at`, `timezone.now()` for
`processed_at`) are modelled by passing the current time explicitly as a
`Nat` argument to every mutating operation.  The decimal `amount` is
modelled as an integer number of minor units; no operation reads or writes
it, so its representation is irrelevant to every property proved below.
-/

/-- The `PaymentRequest.Status` text choices of `models.py`. -/
inductive Status
  | pending
  | processing
  | approved
  | rejected
  | completed
  | cancelled
deriving DecidableEq, Repr

/-- The `PaymentRequest.Currency` text choices of `models.py`. -/
inductive Currency
  | RUB
  | USD
  | EUR
  | GBP
deriving DecidableEq, Repr

/-- The `PaymentRequest` model of `models.py`.  `created_at` and
`updated_at` are epoch instants; `processed_at` is nullable
(`null=True`); `rejection_reason` and the optional recipient fields
default to the blank string (`blank=True`). -/
structure PaymentRequest where
  amount : Int
  currency : Currency
  recipient_name : String
  recipient_account : String
  recipient_bank : String
  recipient_bank_code : String
  status : Status
  description : String
  created_at : Nat
  updated_at : Nat
  processed_at : Option Nat
  rejection_reason : String
deriving DecidableEq, Repr

/-- Creation of a row with the model's field defaults: `status` defaults to
`PENDING`, `processed_at` to null, `rejection_reason` to blank;
`created_at` and `updated_at` are both stamped with the creation time
(`auto_now_add` / `auto_now`). -/
def PaymentRequest.create (amount : Int) (currency : Currency)
    (recipient_name recipient_account recipient_bank recipient_bank_code : String)
    (description : String) (now : Nat) : PaymentRequest :=
  { amount := amount
    currency := currency
    recipient_name := recipient_name
    recipient_account := recipient_account
    recipient_bank := recipient_bank
    recipient_bank_code := recipient_bank_code
    status := Status.pending
    description := description
    created_at := now
    updated_at := now
    processed_at := none
    rejection_reason := "" }

/-- `PaymentRequest.is_pending` (models.py). -/
def PaymentRequest.is_pending (r : PaymentRequest) : Bool :=
  decide (r.status = Status.pending)

/-- `PaymentRequest.is_completed` (models.py). -/
def PaymentRequest.is_completed (r : PaymentRequest) : Bool :=
  decide (r.status = Status.completed)

/-- `PaymentRequest.can_be_cancelled` (models.py): status is in
`[PENDING, PROCESSING]`. -/
def PaymentRequest.can_be_cancelled (r : PaymentRequest) : Bool :=
  decide (r.status = Status.pending ∨ r.status = Status.processing)

/-- `PaymentRequest.approve` (models.py lines 154-158): if status is
`PENDING`, set it to `APPROVED` and save `status` and `updated_at`;
otherwise do nothing. -/
def PaymentRequest.approve (r : PaymentRequest) (now : Nat) : PaymentRequest :=
  if r.status = Status.pending then
    { r with status := Status.approved, updated_at := now }
  else r

/-- `PaymentRequest.reject` (models.py lines 160-165): if status is in
`[PENDING, PROCESSING]`, set it to `REJECTED`, record the reason, and save
`status`, `rejection_reason` and `updated_at`; otherwise do nothing.  The
source's default argument is `reason=""`. -/
def PaymentRequest.reject (r : PaymentRequest) (reason : String) (now : Nat) :
    PaymentRequest :=
  if r.status = Status.pending ∨ r.status = Status.processing then
    { r with status := Status.rejected, rejection_reason := reason, updated_at := now }
  else r

/-- `PaymentRequest.complete` (models.py lines 167-174): if status is
`APPROVED`, set it to `COMPLETED`, stamp `processed_at` with the current
time, and save `status`, `processed_at` and `updated_at`; otherwise do
nothing. -/
def PaymentRequest.complete (r : PaymentRequest) (now : Nat) : PaymentRequest :=
  if r.status = Status.approved then
    { r with status := Status.completed, processed_at := some now, updated_at := now }
  else r

/-- `PaymentRequest.cancel` (models.py lines 176-181): if
`can_be_cancelled`, set status to `CANCELLED` and save `status` and
`updated_at`; otherwise do nothing. -/
def PaymentRequest.cancel (r : PaymentRequest) (now : Nat) : PaymentRequest :=
  if r.can_be_cancelled then
    { r with status := Status.cancelled, updated_at := now }
  else r

/-- The terminal statuses of the lifecycle: `REJECTED`, `COMPLETED`,
`CANCELLED` (no transition operation moves away from any of them). -/
def Status.isTerminal : Status → Bool
  | Status.rejected => true
  | Status.completed => true
  | Status.cancelled => true
  | _ => false

/-- One invocation of a transition operation, with its arguments: the time
at which it runs and, for `reject`, the reason passed. -/
inductive Op
  | approveOp (now : Nat)
  | rejectOp (reason : String) (now : Nat)
  | completeOp (now : Nat)
  | cancelOp (now : Nat)
deriving DecidableEq, Repr

/-- Apply one transition-operation call to a request. -/
def applyOp (r : PaymentRequest) : Op → PaymentRequest
  | Op.approveOp t => r.approve t
  | Op.rejectOp s t => r.reject s t
  | Op.completeOp t => r.complete t
  | Op.cancelOp t => r.cancel t

/-- Apply a sequence of transition-operation calls, oldest first. -/
def applyOps (r : PaymentRequest) (ops : List Op) : PaymentRequest :=
  ops.foldl applyOp r

/-- Holds of an `Op` unless it is a `reject` carrying an empty reason. -/
def opReasonNonempty : Op → Prop
  | Op.rejectOp s _ => s ≠ ""
  | _ => True

instance (op : Op) : Decidable (opReasonNonempty op) := by
  cases op <;> simp [opReasonNonempty] <;> infer_instance

/-- The log events `process_payment_request` (tasks.py) can emit, in source
order: the opening info line, the not-PENDING skip warning, the
status-changed-to-PROCESSING info line, the not-found error line, the
APPROVED info line and the REJECTED warning line. -/
inductive LogEvent
  | startInfo
  | skipWarning (st : Status)
  | processingInfo
  | notFoundError
  | approvedInfo
  | rejectedWarning
deriving DecidableEq, Repr

/-- How the worker run ends.  The first four constructors are the task's
normal return values (`"Skipped: ..."`, `"Failed: Request not found"`,
`"Processed ...: Approved"`, `"Processed ...: Rejected"`); the last is an
uncaught `DoesNotExist` exception escaping the second transaction, which
the task body does not handle. -/
inductive TaskResult
  | skipped (st : Status)
  | failedNotFound
  | processedApproved
  | processedRejected
  | raisedDoesNotExist
deriving DecidableEq, Repr

/-- What the first lock-protected block of `process_payment_request`
decides: the row was missing (caught `DoesNotExist`), the row was not
`PENDING` (skip), or the row was flipped to `PROCESSING` and the task
proceeds to the external call. -/
inductive Phase1Out
  | notFound
  | skip (st : Status)
  | proceed
deriving DecidableEq, Repr

/-- The worker's fixed rejection reason (tasks.py line 66). -/
def externalRejectReason : String :=
  "Rejected by external system (simulated failure)"

/-- First phase of `process_payment_request` (tasks.py lines 25-46): inside
`transaction.atomic`, `select_for_update().get(id)`; on `DoesNotExist`,
log an error and return the not-found failure; if the status is not
`PENDING`, log a warning and return a skip; otherwise set the status to
`PROCESSING` and save `status` and `updated_at`.  The store is the row
under the given id (`none` when the row does not exist). -/
def workerPhase1 (store : Option PaymentRequest) (now : Nat) :
    Option PaymentRequest × List LogEvent × Phase1Out :=
  match store with
  | none => (none, [LogEvent.startInfo, LogEvent.notFoundError], Phase1Out.notFound)
  | some r =>
    if r.status ≠ Status.pending then
      (some r, [LogEvent.startInfo, LogEvent.skipWarning r.status], Phase1Out.skip r.status)
    else
      (some { r with status := Status.processing, updated_at := now },
       [LogEvent.startInfo, LogEvent.processingInfo], Phase1Out.proceed)

/-- Second phase of `process_payment_request` (tasks.py lines 57-71): in a
fresh transaction, re-fetch the row with `select_for_update().get(id)` —
this `get` is *not* wrapped in the try/except, so a missing row raises an
uncaught `DoesNotExist` — then call `approve()` on simulated success or
`reject(reason)` on simulated failure. -/
def workerPhase2 (store : Option PaymentRequest) (is_success : Bool) (now : Nat) :
    Option PaymentRequest × List LogEvent × TaskResult :=
  match store with
  | none => (none, [], TaskResult.raisedDoesNotExist)
  | some r =>
    if is_success then
      (some (r.approve now), [LogEvent.approvedInfo], TaskResult.processedApproved)
    else
      (some (r.reject externalRejectReason now),
       [LogEvent.rejectedWarning], TaskResult.processedRejected)

/-- A full `process_payment_request` run in which the row is not touched by
anyone else between the two lock-protected phases: phase 2 re-fetches
exactly the store phase 1 committed.  `t1` and `t2` are the times of the
two transactions; `is_success` is the simulated external outcome. -/
def process_payment_request (store : Option PaymentRequest) (is_success : Bool)
    (t1 t2 : Nat) : Option PaymentRequest × List LogEvent × TaskResult :=
  match workerPhase1 store t1 with
  | (s1, l1, Phase1Out.notFound) => (s1, l1, TaskResult.failedNotFound)
  | (s1, l1, Phase1Out.skip st) => (s1, l1, TaskResult.skipped st)
  | (_, l1, Phase1Out.proceed) =>
    match workerPhase2 (workerPhase1 store t1).1 is_success t2 with
    | (s2, l2, res) => (s2, l1 ++ l2, res)

/-- A full `process_payment_request` run in which the lock released between
the two phases lets the rest of the system change the row: phase 2 runs
against `store2`, the state of the row at re-fetch time (for instance
`none` when the row was deleted in between). -/
def process_payment_request_interleaved (store1 store2 : Option PaymentRequest)
    (is_success : Bool) (t1 t2 : Nat) :
    Option PaymentRequest × List LogEvent × TaskResult :=
  match workerPhase1 store1 t1 with
  | (s1, l1, Phase1Out.notFound) => (s1, l1, TaskResult.failedNotFound)
  | (s1, l1, Phase1Out.skip st) => (s1, l1, TaskResult.skipped st)
  | (_, l1, Phase1Out.proceed) =>
    match workerPhase2 store2 is_success t2 with
    | (s2, l2, res) => (s2, l1 ++ l2, res)

/-- A task invocation registered with the queue: the target request id and
the `countdown` delay passed to `apply_async`. -/
structure ScheduledTask where
  request_id : Nat
  countdown : Nat
deriving DecidableEq, Repr

/-- The `post_save` receiver `trigger_payment_processing` (signals.py):
when the save is a creation (`created=True`) and the instance's status is
`PENDING`, register — via `transaction.on_commit` — exactly one
`process_payment_request.apply_async` call for the instance's id with
`countdown=2`; otherwise register nothing.  The result is the list of
invocations the post-commit hook will submit once the creating transaction
commits. -/
def trigger_payment_processing (created : Bool) (instance_id : Nat)
    (inst : PaymentRequest) : List ScheduledTask :=
  if created && decide (inst.status = Status.pending) then
    [{ request_id := instance_id, countdown := 2 }]
  else
    []

/-- A sample freshly created request (the shape the API's create path
produces: status `PENDING`, `processed_at` null, `rejection_reason`
blank), used by the concrete instances below. -/
def sampleRequest : PaymentRequest :=
  PaymentRequest.create 100000 Currency.RUB "Test User" "1234567890" "" "" "Test payment" 0

/-- The sample row after it has been moved to `PROCESSING` (as the worker's
first phase does). -/
def sampleProcessing : PaymentRequest :=
  { sampleRequest with status := Status.processing, updated_at := 1 }

/-- The sample row in the terminal state `COMPLETED`, with `processed_at`
stamped as `complete` stamps it. -/
def sampleCompleted : PaymentRequest :=
  { sampleRequest with status := Status.completed, processed_at := some 2, updated_at := 2 }

theorem approve_of_ne_pending {r : PaymentRequest} (t : Nat)
    (h : r.status ≠ Status.pending) : r.approve t = r := by
  simp [PaymentRequest.approve, h]

theorem reject_of_not_active {r : PaymentRequest} (s : String) (t : Nat)
    (h : ¬(r.status = Status.pending ∨ r.status = Status.processing)) :
    r.reject s t = r := by
  simp [PaymentRequest.reject, h]

theorem complete_of_ne_approved {r : PaymentRequest} (t : Nat)
    (h : r.status ≠ Status.approved) : r.complete t = r := by
  simp [PaymentRequest.complete, h]

theorem cancel_of_not_active {r : PaymentRequest} (t : Nat)
    (h : ¬(r.status = Status.pending ∨ r.status = Status.processing)) :
    r.cancel t = r := by
  simp [PaymentRequest.cancel, PaymentRequest.can_be_cancelled, h]

theorem applyOp_of_terminal {r : PaymentRequest} (h : r.status.isTerminal = true)
    (op : Op) : applyOp r op = r := by
  have hp : r.status ≠ Status.pending := by
    intro hc; rw [hc] at h; simp [Status.isTerminal] at h
  have hq : r.status ≠ Status.processing := by
    intro hc; rw [hc] at h; simp [Status.isTerminal] at h
  have ha : r.status ≠ Status.approved := by
    intro hc; rw [hc] at h; simp [Status.isTerminal] at h
  cases op with
  | approveOp t => exact approve_of_ne_pending t hp
  | rejectOp s t => exact reject_of_not_active s t (by tauto)
  | completeOp t => exact complete_of_ne_approved t ha
  | cancelOp t => exact cancel_of_not_active t (by tauto)

theorem applyOps_of_terminal {r : PaymentRequest} (h : r.status.isTerminal = true)
    (ops : List Op) : applyOps r ops = r := by
  induction ops with
  | nil => rfl
  | cons op ops ih =>
    simp only [applyOps, List.foldl_cons, applyOp_of_terminal h op]
    simpa [applyOps] using ih

theorem rejection_reason_inv_applyOp {r : PaymentRequest} (op : Op)
    (hr : r.status = Status.rejected → r.rejection_reason ≠ "")
    (hop : opReasonNonempty op) :
    (applyOp r op).status = Status.rejected → (applyOp r op).rejection_reason ≠ "" := by
  cases op with
  | approveOp t =>
    by_cases hp : r.status = Status.pending
    · simp [applyOp, PaymentRequest.approve, hp]
    · simpa [applyOp, approve_of_ne_pending t hp] using hr
  | rejectOp s t =>
    by_cases hg : r.status = Status.pending ∨ r.status = Status.processing
    · simp only [opReasonNonempty] at hop
      simp [applyOp, PaymentRequest.reject, hg, hop]
    · simpa [applyOp, reject_of_not_active s t hg] using hr
  | completeOp t =>
    by_cases ha : r.status = Status.approved
    · simp [applyOp, PaymentRequest.complete, ha]
    · simpa [applyOp, complete_of_ne_approved t ha] using hr
  | cancelOp t =>
    by_cases hg : r.status = Status.pending ∨ r.status = Status.processing
    · simp [applyOp, PaymentRequest.cancel, PaymentRequest.can_be_cancelled, hg]
    · simpa [applyOp, cancel_of_not_active t hg] using hr

theorem rejection_reason_inv_applyOps {r : PaymentRequest} (ops : List Op)
    (hr : r.status = Status.rejected → r.rejection_reason ≠ "")
    (hops : ∀ op ∈ ops, opReasonNonempty op) :
    (applyOps r ops).status = Status.rejected → (applyOps r ops).rejection_reason ≠ "" := by
  induction ops generalizing r with
  | nil => exact hr
  | cons op ops ih =>
    simp only [applyOps, List.foldl_cons]
    have h1 : opReasonNonempty op := hops op (List.mem_cons_self op ops)
    have h2 : ∀ o ∈ ops, opReasonNonempty o := fun o ho => hops o (List.mem_cons_of_mem op ho)
    exact ih (rejection_reason_inv_applyOp op hr h1) h2

theorem processed_at_inv_applyOp {r : PaymentRequest} (op : Op)
    (hr : r.processed_at ≠ none ↔ r.status = Status.completed) :
    (applyOp r op).processed_at ≠ none ↔ (applyOp r op).status = Status.completed := by
  cases op with
  | approveOp t =>
    by_cases hp : r.status = Status.pending
    · have : r.processed_at = none := by
        by_contra hc
        rw [hr.mp hc] at hp
        exact absurd hp (by simp)
      simp [applyOp, PaymentRequest.approve, hp, this]
    · simpa [applyOp, approve_of_ne_pending t hp] using hr
  | rejectOp s t =>
    by_cases hg : r.status = Status.pending ∨ r.status = Status.processing
    · have : r.processed_at = none := by
        by_contra hc
        rcases hg with h | h <;> rw [hr.mp hc] at h <;> exact absurd h (by simp)
      simp [applyOp, PaymentRequest.reject, hg, this]
    · simpa [applyOp, reject_of_not_active s t hg] using hr
  | completeOp t =>
    by_cases ha : r.status = Status.approved
    · simp [applyOp, PaymentRequest.complete, ha]
    · simpa [applyOp, complete_of_ne_approved t ha] using hr
  | cancelOp t =>
    by_cases hg : r.status = Status.pending ∨ r.status = Status.processing
    · have : r.processed_at = none := by
        by_contra hc
        rcases hg with h | h <;> rw [hr.mp hc] at h <;> exact absurd h (by simp)
      simp [applyOp, PaymentRequest.cancel, PaymentRequest.can_be_cancelled, hg, this]
    · simpa [applyOp, cancel_of_not_active t hg] using hr

theorem processed_at_inv_applyOps {r : PaymentRequest} (ops : List Op)
    (hr : r.processed_at ≠ none ↔ r.status = Status.completed) :
    (applyOps r ops).processed_at ≠ none ↔ (applyOps r ops).status = Status.completed := by
  induction ops generalizing r with
  | nil => exact hr
  | cons op ops ih =>
    simp only [applyOps, List.foldl_cons]
    exact ih (processed_at_inv_applyOp op hr)

/-- C1 (failing-input evaluation): on a freshly created `PENDING` request,
a worker run whose external simulation succeeds first flips the row to
`PROCESSING`, and the terminal-phase `approve()` call is then a silent
no-op because `approve` requires status `PENDING`.  The final status is
`PROCESSING`, not `APPROVED`, even though the task logs and returns the
"Approved" outcome; `processed_at` does remain null as the claim states. -/
theorem worker_success_path_leaves_processing :
    (process_payment_request (some sampleRequest) true 1 2).1.map PaymentRequest.status
      = some Status.processing
  ∧ (process_payment_request (some sampleRequest) true 1 2).1.map PaymentRequest.status
      ≠ some Status.approved
  ∧ (process_payment_request (some sampleRequest) true 1 2).2.2 = TaskResult.processedApproved
  ∧ (process_payment_request (some sampleRequest) true 1 2).1.map PaymentRequest.processed_at
      = some none := by decide

/-- C2 (counterexample): on a concrete request whose status is
`PROCESSING`, no single transition-operation call produces status
`APPROVED`; in particular `approve` is a no-op there, so the claimed edge
`PROCESSING → APPROVED` has no realizing operation. -/
theorem approve_unreachable_from_processing :
    sampleProcessing.status = Status.processing
  ∧ sampleProcessing.approve 1 = sampleProcessing
  ∧ (sampleProcessing.approve 1).status ≠ Status.approved
  ∧ (sampleProcessing.reject "r" 1).status ≠ Status.approved
  ∧ (sampleProcessing.complete 1).status ≠ Status.approved
  ∧ (sampleProcessing.cancel 1).status ≠ Status.approved := by decide

/-- C2 (amended): from any request in status `PROCESSING`, a single call
reaches `REJECTED` (via `reject`) and `CANCELLED` (via `cancel`), but
`APPROVED` is not reachable: `approve` (legal only from `PENDING`) and
`complete` (legal only from `APPROVED`) are both no-ops there. -/
theorem processing_single_call_reachability (r : PaymentRequest)
    (h : r.status = Status.processing) (t : Nat) (s : String) :
    (r.reject s t).status = Status.rejected
  ∧ (r.cancel t).status = Status.cancelled
  ∧ r.approve t = r
  ∧ r.complete t = r := by
  refine ⟨?_, ?_, ?_, ?_⟩
  · simp [PaymentRequest.reject, h]
  · simp [PaymentRequest.cancel, PaymentRequest.can_be_cancelled, h]
  · exact approve_of_ne_pending t (by simp [h])
  · exact complete_of_ne_approved t (by simp [h])

/-- C2 (witness): the amended reachability statement evaluated on the
concrete `PROCESSING` sample row. -/
theorem processing_single_call_reachability_witness :
    (sampleProcessing.reject "manual review failed" 3).status = Status.rejected
  ∧ (sampleProcessing.cancel 3).status = Status.cancelled
  ∧ sampleProcessing.approve 3 = sampleProcessing
  ∧ sampleProcessing.complete 3 = sampleProcessing :=
  processing_single_call_reachability sampleProcessing (by decide) 3 "manual review failed"

/-- C3 (counterexample): `reject` accepts the empty reason (its source
default), so the one-call sequence `reject("")` on a freshly created
`PENDING` request yields status `REJECTED` with an empty
`rejection_reason`. -/
theorem reject_empty_reason_reaches_rejected :
    (applyOps sampleRequest [Op.rejectOp "" 1]).status = Status.rejected
  ∧ (applyOps sampleRequest [Op.rejectOp "" 1]).rejection_reason = "" := by decide

/-- C3 (amended): starting from a freshly created `PENDING` request, after
any sequence of transition-operation calls in which every `reject` call
passes a non-empty reason, whenever the status is `REJECTED` the
`rejection_reason` is non-empty.  (The code does not itself enforce
non-emptiness of the reason; the worker's fixed reason is non-empty.) -/
theorem rejected_reason_nonempty_of_nonempty_calls (r0 : PaymentRequest)
    (hs : r0.status = Status.pending) (ops : List Op)
    (hops : ∀ op ∈ ops, opReasonNonempty op)
    (hrej : (applyOps r0 ops).status = Status.rejected) :
    (applyOps r0 ops).rejection_reason ≠ "" := by
  refine rejection_reason_inv_applyOps ops ?_ hops hrej
  intro hc
  rw [hs] at hc
  exact absurd hc (by simp)

/-- C3 (witness): a concrete rejection with a non-empty reason on the
sample fresh request. -/
theorem rejected_reason_nonempty_witness :
    (applyOps sampleRequest [Op.rejectOp "insufficient funds" 1]).rejection_reason ≠ "" :=
  rejected_reason_nonempty_of_nonempty_calls sampleRequest rfl
    [Op.rejectOp "insufficient funds" 1] (by decide) (by decide)

/-- C4: a worker run whose row exists but is not `PENDING` at
lock-acquisition time leaves the stored row exactly as it was (every
field), emits the skip warning, and returns the skip result — a normal
return, not an error, and the task body contains no retry call. -/
theorem worker_skips_non_pending (r : PaymentRequest)
    (h : r.status ≠ Status.pending) (is_success : Bool) (t1 t2 : Nat) :
    process_payment_request (some r) is_success t1 t2
      = (some r, [LogEvent.startInfo, LogEvent.skipWarning r.status],
         TaskResult.skipped r.status) := by
  simp [process_payment_request, workerPhase1, h]

/-- C4 (witness): the skip behaviour evaluated on the concrete
`PROCESSING` sample row. -/
theorem worker_skips_non_pending_witness :
    process_payment_request (some sampleProcessing) true 5 6
      = (some sampleProcessing,
         [LogEvent.startInfo, LogEvent.skipWarning Status.processing],
         TaskResult.skipped Status.processing) :=
  worker_skips_non_pending sampleProcessing (by decide) true 5 6

/-- C5: each transition operation invoked outside its legal source states
(`approve`: `PENDING`; `reject`/`cancel`: `PENDING` or `PROCESSING`;
`complete`: `APPROVED`) returns the request completely unchanged — every
field, including `status`, `updated_at`, `rejection_reason` and
`processed_at` — and in particular the second of two consecutive calls of
the same operation is always such a no-op. -/
theorem transitions_noop_outside_legal_sources (r : PaymentRequest)
    (t1 t2 : Nat) (s1 s2 : String) :
    (r.status ≠ Status.pending → r.approve t1 = r)
  ∧ (¬(r.status = Status.pending ∨ r.status = Status.processing) → r.reject s1 t1 = r)
  ∧ (r.status ≠ Status.approved → r.complete t1 = r)
  ∧ (¬(r.status = Status.pending ∨ r.status = Status.processing) → r.cancel t1 = r)
  ∧ (r.approve t1).approve t2 = r.approve t1
  ∧ (r.reject s1 t1).reject s2 t2 = r.reject s1 t1
  ∧ (r.complete t1).complete t2 = r.complete t1
  ∧ (r.cancel t1).cancel t2 = r.cancel t1 := by
  refine ⟨fun h => approve_of_ne_pending t1 h,
          fun h => reject_of_not_active s1 t1 h,
          fun h => complete_of_ne_approved t1 h,
          fun h => cancel_of_not_active t1 h, ?_, ?_, ?_, ?_⟩
  · by_cases hp : r.status = Status.pending
    · simp [PaymentRequest.approve, hp]
    · rw [approve_of_ne_pending t1 hp, approve_of_ne_pending t2 hp]
  · by_cases hg : r.status = Status.pending ∨ r.status = Status.processing
    · simp [PaymentRequest.reject, hg]
    · rw [reject_of_not_active s1 t1 hg, reject_of_not_active s2 t2 hg]
  · by_cases ha : r.status = Status.approved
    · simp [PaymentRequest.complete, ha]
    · rw [complete_of_ne_approved t1 ha, complete_of_ne_approved t2 ha]
  · by_cases hg : r.status = Status.pending ∨ r.status = Status.processing
    · simp [PaymentRequest.cancel, PaymentRequest.can_be_cancelled, hg]
    · rw [cancel_of_not_active t1 hg, cancel_of_not_active t2 hg]

/-- C5 (witness): the no-op behaviour evaluated on the terminal
`COMPLETED` sample row, and double-call idempotence evaluated on the
fresh `PENDING` sample row. -/
theorem transitions_noop_outside_legal_sources_witness :
    sampleCompleted.approve 5 = sampleCompleted
  ∧ sampleCompleted.reject "x" 5 = sampleCompleted
  ∧ sampleCompleted.complete 5 = sampleCompleted
  ∧ sampleCompleted.cancel 5 = sampleCompleted
  ∧ (sampleRequest.approve 1).approve 2 = sampleRequest.approve 1
  ∧ (sampleRequest.reject "dup" 1).reject "dup again" 2 = sampleRequest.reject "dup" 1
  ∧ (sampleRequest.complete 1).complete 2 = sampleRequest.complete 1
  ∧ (sampleRequest.cancel 1).cancel 2 = sampleRequest.cancel 1 := by
  have h1 := transitions_noop_outside_legal_sources sampleCompleted 5 5 "x" "y"
  have h2 := transitions_noop_outside_legal_sources sampleRequest 1 2 "dup" "dup again"
  exact ⟨h1.1 (by decide), h1.2.1 (by decide), h1.2.2.1 (by decide), h1.2.2.2.1 (by decide),
         h2.2.2.2.2.1, h2.2.2.2.2.2.1, h2.2.2.2.2.2.2.1, h2.2.2.2.2.2.2.2⟩

/-- C6: once a request's status is terminal (`REJECTED`, `COMPLETED` or
`CANCELLED`), no sequence of further transition-operation calls ever
changes its status. -/
theorem terminal_status_absorbing (r : PaymentRequest)
    (h : r.status.isTerminal = true) (ops : List Op) :
    (applyOps r ops).status = r.status := by
  rw [applyOps_of_terminal h ops]

/-- C6 (witness): absorption evaluated on the `COMPLETED` sample row under
a concrete pair of further calls. -/
theorem terminal_status_absorbing_witness :
    (applyOps sampleCompleted [Op.approveOp 3, Op.cancelOp 4]).status
      = sampleCompleted.status :=
  terminal_status_absorbing sampleCompleted (by decide) [Op.approveOp 3, Op.cancelOp 4]

/-- C7: starting from any request with `PENDING` status and null
`processed_at` (a freshly created request), after any sequence of
transition-operation calls `processed_at` is non-null exactly when the
status is `COMPLETED`; moreover a status that is `COMPLETED` stays
`COMPLETED` under further calls (so "is `COMPLETED`" and "has passed
through `COMPLETED`" coincide), and a `processed_at` value once set is
never cleared or changed by further calls. -/
theorem processed_at_iff_completed (r0 : PaymentRequest)
    (h0 : r0.processed_at = none) (hs : r0.status = Status.pending)
    (ops more : List Op) (t : Nat) :
    ((applyOps r0 ops).processed_at ≠ none
       ↔ (applyOps r0 ops).status = Status.completed)
  ∧ ((applyOps r0 ops).processed_at = some t →
       (applyOps (applyOps r0 ops) more).processed_at = some t)
  ∧ ((applyOps r0 ops).status = Status.completed →
       (applyOps (applyOps r0 ops) more).status = Status.completed) := by
  have hinv : (applyOps r0 ops).processed_at ≠ none
      ↔ (applyOps r0 ops).status = Status.completed := by
    refine processed_at_inv_applyOps ops ?_
    rw [h0, hs]
    simp
  refine ⟨hinv, ?_, ?_⟩
  · intro hset
    have hc : (applyOps r0 ops).status = Status.completed := by
      refine hinv.mp ?_
      rw [hset]
      simp
    have hterm : (applyOps r0 ops).status.isTerminal = true := by
      rw [hc]; rfl
    rw [applyOps_of_terminal hterm more, hset]
  · intro hc
    have hterm : (applyOps r0 ops).status.isTerminal = true := by
      rw [hc]; rfl
    rw [applyOps_of_terminal hterm more, hc]

/-- C7 (witness): the invariant evaluated on the sample fresh request
driven to `COMPLETED` via `approve` then `complete`, with a further
`cancel` call leaving the stamped `processed_at` untouched. -/
theorem processed_at_iff_completed_witness :
    ((applyOps sampleRequest [Op.approveOp 1, Op.completeOp 2]).processed_at ≠ none
       ↔ (applyOps sampleRequest [Op.approveOp 1, Op.completeOp 2]).status = Status.completed)
  ∧ (applyOps (applyOps sampleRequest [Op.approveOp 1, Op.completeOp 2])
       [Op.cancelOp 3]).processed_at = some 2 := by
  have h := processed_at_iff_completed sampleRequest rfl rfl
    [Op.approveOp 1, Op.completeOp 2] [Op.cancelOp 3] 2
  exact ⟨h.1, h.2.1 (by decide)⟩

/-- C8: the `post_save` receiver schedules exactly one worker invocation,
carrying the saved instance's id and the fixed `countdown=2` delay, when
and only when the save was a creation and the instance's status is
`PENDING`; a save of an existing row, or a creation with a non-`PENDING`
status, schedules nothing. -/
theorem creation_schedules_exactly_one_task (created : Bool) (rid : Nat)
    (r : PaymentRequest) :
    (created = true → r.status = Status.pending →
       trigger_payment_processing created rid r = [{ request_id := rid, countdown := 2 }])
  ∧ (created = false → trigger_payment_processing created rid r = [])
  ∧ (r.status ≠ Status.pending → trigger_payment_processing created rid r = []) := by
  refine ⟨?_, ?_, ?_⟩
  · intro hc hs
    simp [trigger_payment_processing, hc, hs]
  · intro hc
    simp [trigger_payment_processing, hc]
  · intro hs
    simp [trigger_payment_processing, hs]

/-- C8 (witness): the scheduling contract evaluated on the sample rows:
one task for a fresh `PENDING` creation, none for a non-creation save,
none for a non-`PENDING` creation. -/
theorem creation_schedules_exactly_one_task_witness :
    trigger_payment_processing true 7 sampleRequest = [{ request_id := 7, countdown := 2 }]
  ∧ trigger_payment_processing false 7 sampleRequest = []
  ∧ trigger_payment_processing true 7 sampleProcessing = [] :=
  ⟨(creation_schedules_exactly_one_task true 7 sampleRequest).1 rfl (by decide),
   (creation_schedules_exactly_one_task false 7 sampleRequest).2.1 rfl,
   (creation_schedules_exactly_one_task true 7 sampleProcessing).2.2 (by decide)⟩

/-- C9 (amended): a worker invocation whose row is missing at the first
fetch logs the not-found error and returns the not-found failure — a
normal return, so it is not retried and nothing is mutated; but when the
row ceases to exist between the `PROCESSING` transition and the
terminal-phase re-fetch, the unprotected second `get` raises an uncaught
`DoesNotExist` with no not-found log line (still without retrying and
without mutating any request). -/
theorem worker_not_found_handling (is_success : Bool) (t1 t2 t3 : Nat) :
    process_payment_request none is_success t1 t2
      = (none, [LogEvent.startInfo, LogEvent.notFoundError], TaskResult.failedNotFound)
  ∧ workerPhase2 none is_success t3 = (none, [], TaskResult.raisedDoesNotExist) := by
  constructor
  · simp [process_payment_request, workerPhase1]
  · simp [workerPhase2]

/-- C9 (counterexample): a run that observes the sample `PENDING` row,
flips it to `PROCESSING`, and then finds the row deleted at the
terminal-phase re-fetch ends in the uncaught `DoesNotExist`, with no
not-found log event and without the logged not-found failure result the
claim describes. -/
theorem worker_vanished_row_uncaught :
    (process_payment_request_interleaved (some sampleRequest) none true 1 2).2.2
      = TaskResult.raisedDoesNotExist
  ∧ LogEvent.notFoundError ∉
      (process_payment_request_interleaved (some sampleRequest) none true 1 2).2.1
  ∧ (process_payment_request_interleaved (some sampleRequest) none true 1 2).2.2
      ≠ TaskResult.failedNotFound := by decide

theorem approve_frame (r : PaymentRequest) (t : Nat) :
    (r.approve t).amount = r.amount
  ∧ (r.approve t).currency = r.currency
  ∧ (r.approve t).recipient_name = r.recipient_name
  ∧ (r.approve t).recipient_account = r.recipient_account
  ∧ (r.approve t).recipient_bank = r.recipient_bank
  ∧ (r.approve t).recipient_bank_code = r.recipient_bank_code
  ∧ (r.approve t).description = r.description
  ∧ (r.approve t).created_at = r.created_at
  ∧ (r.approve t).processed_at = r.processed_at
  ∧ (r.approve t).rejection_reason = r.rejection_reason := by
  by_cases hp : r.status = Status.pending <;> simp [PaymentRequest.approve, hp]

theorem reject_frame (r : PaymentRequest) (s : String) (t : Nat) :
    (r.reject s t).amount = r.amount
  ∧ (r.reject s t).currency = r.currency
  ∧ (r.reject s t).recipient_name = r.recipient_name
  ∧ (r.reject s t).recipient_account = r.recipient_account
  ∧ (r.reject s t).recipient_bank = r.recipient_bank
  ∧ (r.reject s t).recipient_bank_code = r.recipient_bank_code
  ∧ (r.reject s t).description = r.description
  ∧ (r.reject s t).created_at = r.created_at
  ∧ (r.reject s t).processed_at = r.processed_at := by
  by_cases hg : r.status = Status.pending ∨ r.status = Status.processing <;>
    simp [PaymentRequest.reject, hg]

theorem complete_frame (r : PaymentRequest) (t : Nat) :
    (r.complete t).amount = r.amount
  ∧ (r.complete t).currency = r.currency
  ∧ (r.complete t).recipient_name = r.recipient_name
  ∧ (r.complete t).recipient_account = r.recipient_account
  ∧ (r.complete t).recipient_bank = r.recipient_bank
  ∧ (r.complete t).recipient_bank_code = r.recipient_bank_code
  ∧ (r.complete t).description = r.description
  ∧ (r.complete t).created_at = r.created_at
  ∧ (r.complete t).rejection_reason = r.rejection_reason := by
  by_cases ha : r.status = Status.approved <;> simp [PaymentRequest.complete, ha]

theorem cancel_frame (r : PaymentRequest) (t : Nat) :
    (r.cancel t).amount = r.amount
  ∧ (r.cancel t).currency = r.currency
  ∧ (r.cancel t).recipient_name = r.recipient_name
  ∧ (r.cancel t).recipient_account = r.recipient_account
  ∧ (r.cancel t).recipient_bank = r.recipient_bank
  ∧ (r.cancel t).recipient_bank_code = r.recipient_bank_code
  ∧ (r.cancel t).description = r.description
  ∧ (r.cancel t).created_at = r.created_at
  ∧ (r.cancel t).processed_at = r.processed_at
  ∧ (r.cancel t).rejection_reason = r.rejection_reason := by
  by_cases hg : r.status = Status.pending ∨ r.status = Status.processing <;>
    simp [PaymentRequest.cancel, PaymentRequest.can_be_cancelled, hg]

/-- C10: in every case — no-op or successful — `approve` and `cancel`
leave every field other than `status` and `updated_at` unchanged,
`reject` additionally may write only `rejection_reason`, and `complete`
additionally may write only `processed_at`; `amount`, `currency`, the
`recipient_*` fields, `description` and `created_at` are unchanged by all
four operations. -/
theorem transition_frame_conditions (r : PaymentRequest) (t : Nat) (s : String) :
    ((r.approve t).amount = r.amount
      ∧ (r.approve t).currency = r.currency
      ∧ (r.approve t).recipient_name = r.recipient_name
      ∧ (r.approve t).recipient_account = r.recipient_account
      ∧ (r.approve t).recipient_bank = r.recipient_bank
      ∧ (r.approve t).recipient_bank_code = r.recipient_bank_code
      ∧ (r.approve t).description = r.description
      ∧ (r.approve t).created_at = r.created_at
      ∧ (r.approve t).processed_at = r.processed_at
      ∧ (r.approve t).rejection_reason = r.rejection_reason)
  ∧ ((r.reject s t).amount = r.amount
      ∧ (r.reject s t).currency = r.currency
      ∧ (r.reject s t).recipient_name = r.recipient_name
      ∧ (r.reject s t).recipient_account = r.recipient_account
      ∧ (r.reject s t).recipient_bank = r.recipient_bank
      ∧ (r.reject s t).recipient_bank_code = r.recipient_bank_code
      ∧ (r.reject s t).description = r.description
      ∧ (r.reject s t).created_at = r.created_at
      ∧ (r.reject s t).processed_at = r.processed_at)
  ∧ ((r.complete t).amount = r.amount
      ∧ (r.complete t).currency = r.currency
      ∧ (r.complete t).recipient_name = r.recipient_name
      ∧ (r.complete t).recipient_account = r.recipient_account
      ∧ (r.complete t).recipient_bank = r.recipient_bank
      ∧ (r.complete t).recipient_bank_code = r.recipient_bank_code
      ∧ (r.complete t).description = r.description
      ∧ (r.complete t).created_at = r.created_at
      ∧ (r.complete t).rejection_reason = r.rejection_reason)
  ∧ ((r.cancel t).amount = r.amount
      ∧ (r.cancel t).currency = r.currency
      ∧ (r.cancel t).recipient_name = r.recipient_name
      ∧ (r.cancel t).recipient_account = r.recipient_account
      ∧ (r.cancel t).recipient_bank = r.recipient_bank
      ∧ (r.cancel t).recipient_bank_code = r.recipient_bank_code
      ∧ (r.cancel t).description = r.description
      ∧ (r.cancel t).created_at = r.created_at
      ∧ (r.cancel t).processed_at = r.processed_at
      ∧ (r.cancel t).rejection_reason = r.rejection_reason) :=
  ⟨approve_frame r t, reject_frame r s t, complete_frame r t, cancel_frame r t⟩
